import Mathlib

/-
Shallow embedding of the repository source file src/app/api/route.js:
a Next.js POST handler that reads the GEMINI_API_KEY environment
variable, parses the request body as JSON, validates the prompt field,
forwards the prompt to the Google generative-text service, and maps any
caught exception to an HTTP status code by case-insensitive substring
matching on the exception message.

The effectful pieces that the handler consumes (environment lookup,
request.json(), the Gemini client call) are passed in as explicit
parameters; everything else is transcribed from the source.
-/

namespace Anirec

/-- JavaScript truthiness of a string value: the empty string is falsy. -/
def jsTruthyStr (s : String) : Bool := !(s == "")

/-- JavaScript truthiness of a possibly-absent string value, as produced
by a process.env lookup or an object field access: absent (undefined) and
the empty string are both falsy. -/
def jsTruthy : Option String → Bool
  | none => false
  | some s => jsTruthyStr s

/-- Model of String.prototype.toLowerCase restricted to the ASCII range,
which covers every substring pattern the handler matches against. -/
def jsToLower (s : String) : String := ⟨s.data.map Char.toLower⟩

/-- Substring containment on character lists: pat occurs somewhere in the
list (the empty pattern occurs everywhere, as in JavaScript). -/
def containsAux (pat : List Char) : List Char → Bool
  | [] => pat.isEmpty
  | c :: rest => pat.isPrefixOf (c :: rest) || containsAux pat rest

/-- Model of String.prototype.includes: does s contain pat. -/
def jsIncludes (s pat : String) : Bool := containsAux pat.data s.data

/-- A caught JavaScript exception, as the catch block observes it: whether
it is an instance of SyntaxError, and its message property. Error objects
always expose a message string, defaulting to the empty string, and the
handler only ever tests message truthiness and substring containment. -/
structure JsError where
  isSyntaxError : Bool
  message : String
deriving DecidableEq

/-- The JSON body of a response produced by NextResponse.json: either a
success payload with a reply field, or an error payload with an error
string and an optional details string. -/
inductive Body where
  | reply (text : String)
  | err (error : String) (details : Option String)
deriving DecidableEq

/-- An HTTP response: a status code paired with its JSON body. -/
structure HttpResponse where
  status : Nat
  body : Body
deriving DecidableEq

/-- The parsed request body. The handler reads only the prompt field;
a missing field reads as undefined (none here), and a present empty
string is falsy. -/
structure ReqBody where
  prompt : Option String
deriving DecidableEq

/-- The observable outcome of one handler invocation: the HTTP response,
and whether the upstream generateContent call was reached. -/
structure HandlerOutcome where
  response : HttpResponse
  upstreamCalled : Bool
deriving DecidableEq

/-- The catch block of route.js: errorMessage starts as the generic
fallback, is replaced by error.message when that is truthy, and then the
if / else-if chain may override both the message and the status. Returns
the final (errorStatus, errorMessage) pair. -/
def classifyCaughtError (error : JsError) : Nat × String :=
  let errorMessage := "Failed to get response from AI."
  let errorMessage := if jsTruthyStr error.message then error.message else errorMessage
  if jsTruthyStr error.message &&
      jsIncludes (jsToLower error.message) "api key not valid" then
    (401, "Gemini API Key is not valid. Please check your .env.local file and ensure it\x27s correct.")
  else if jsTruthyStr error.message &&
      jsIncludes (jsToLower error.message) "quota" then
    (429, "API quota exceeded. Please check your Google Cloud console.")
  else if jsTruthyStr error.message &&
      jsIncludes (jsToLower error.message) "model not found" then
    (404, "The specified AI model was not found. Check the model name.")
  else if error.isSyntaxError && jsIncludes error.message "JSON" then
    (400, "Invalid JSON in request body.")
  else
    (500, errorMessage)

/-- The single NextResponse.json call at the end of the catch block: it
always attaches the details field pointing at the server logs. -/
def catchResponse (error : JsError) : HttpResponse :=
  ⟨(classifyCaughtError error).1,
    Body.err (classifyCaughtError error).2 (some "See server logs for more information.")⟩

/-- The POST handler of route.js. The apiKey parameter is the value of
process.env.GEMINI_API_KEY; parsed is the result of await request.json(),
an exception when the request body is not valid JSON; generateContent is
the upstream Gemini call, collapsing generateContent, result.response and
response.text() into generated text or a thrown exception. -/
def POST (apiKey : Option String) (parsed : Except JsError ReqBody)
    (generateContent : String → Except JsError String) : HandlerOutcome :=
  if !jsTruthy apiKey then
    ⟨⟨500, Body.err "AI service not configured. API Key missing." none⟩, false⟩
  else
    match parsed with
    | Except.error e => ⟨catchResponse e, false⟩
    | Except.ok reqBody =>
      match reqBody.prompt with
      | none => ⟨⟨400, Body.err "No prompt provided in request body." none⟩, false⟩
      | some userPrompt =>
        if !jsTruthyStr userPrompt then
          ⟨⟨400, Body.err "No prompt provided in request body." none⟩, false⟩
        else
          match generateContent userPrompt with
          | Except.ok text => ⟨⟨200, Body.reply text⟩, true⟩
          | Except.error e => ⟨catchResponse e, true⟩

/-- Whether a response body carries a details field. -/
def bodyHasDetails : Body → Bool
  | Body.reply _ => false
  | Body.err _ d => d.isSome

/-- If the lowercased message contains a pattern that the empty string
does not contain, the message is truthy. -/
theorem truthy_of_includes (s pat : String)
    (hp : jsIncludes (jsToLower "") pat = false)
    (h : jsIncludes (jsToLower s) pat = true) : jsTruthyStr s = true := by
  by_cases h0 : s = ""
  · rw [h0] at h
    rw [h] at hp
    exact Bool.noConfusion hp
  · simp [jsTruthyStr, h0]

/-- With a truthy key, a parse exception flows to the catch block and the
upstream call is never reached. -/
theorem POST_parse_error (key : Option String) (hk : jsTruthy key = true)
    (e : JsError) (up : String → Except JsError String) :
    POST key (.error e) up = ⟨catchResponse e, false⟩ := by
  simp [POST, hk]

/-- With a truthy key and truthy prompt, an upstream exception flows to
the catch block after the upstream call was made. -/
theorem POST_upstream_error (key : Option String) (hk : jsTruthy key = true)
    (p : String) (hp : jsTruthyStr p = true)
    (up : String → Except JsError String) (e : JsError)
    (hup : up p = .error e) :
    POST key (.ok ⟨some p⟩) up = ⟨catchResponse e, true⟩ := by
  simp [POST, hk, hp, hup]

/-- First classification row: a lowercased message containing the api-key
pattern yields the fixed 401 response. -/
theorem catchResponse_api_key (e : JsError)
    (h : jsIncludes (jsToLower e.message) "api key not valid" = true) :
    catchResponse e = ⟨401, Body.err
      "Gemini API Key is not valid. Please check your .env.local file and ensure it\x27s correct."
      (some "See server logs for more information.")⟩ := by
  have hm : jsTruthyStr e.message = true :=
    truthy_of_includes e.message "api key not valid" (by decide) h
  simp [catchResponse, classifyCaughtError, hm, h]

/-- Second classification row: quota, reached when the api-key row did
not match. -/
theorem catchResponse_quota (e : JsError)
    (hq : jsIncludes (jsToLower e.message) "quota" = true)
    (hnk : jsIncludes (jsToLower e.message) "api key not valid" = false) :
    catchResponse e = ⟨429, Body.err
      "API quota exceeded. Please check your Google Cloud console."
      (some "See server logs for more information.")⟩ := by
  have hm : jsTruthyStr e.message = true :=
    truthy_of_includes e.message "quota" (by decide) hq
  simp [catchResponse, classifyCaughtError, hm, hq, hnk]

/-- Third classification row: model not found, reached when neither
earlier row matched. -/
theorem catchResponse_model (e : JsError)
    (hmn : jsIncludes (jsToLower e.message) "model not found" = true)
    (hnk : jsIncludes (jsToLower e.message) "api key not valid" = false)
    (hnq : jsIncludes (jsToLower e.message) "quota" = false) :
    catchResponse e = ⟨404, Body.err
      "The specified AI model was not found. Check the model name."
      (some "See server logs for more information.")⟩ := by
  have hm : jsTruthyStr e.message = true :=
    truthy_of_includes e.message "model not found" (by decide) hmn
  simp [catchResponse, classifyCaughtError, hm, hmn, hnk, hnq]

/-- Fourth classification row: a SyntaxError whose message contains the
case-sensitive marker JSON, reached when no earlier row matched. -/
theorem catchResponse_json (e : JsError)
    (h1 : jsIncludes (jsToLower e.message) "api key not valid" = false)
    (h2 : jsIncludes (jsToLower e.message) "quota" = false)
    (h3 : jsIncludes (jsToLower e.message) "model not found" = false)
    (h4 : (e.isSyntaxError && jsIncludes e.message "JSON") = true) :
    catchResponse e = ⟨400, Body.err "Invalid JSON in request body."
      (some "See server logs for more information.")⟩ := by
  simp [catchResponse, classifyCaughtError, h1, h2, h3, h4]

/-- Default row: no classification row matched, so the status is 500 and
the message is the raw exception message, or the generic fallback when
the exception carries no message. -/
theorem catchResponse_default (e : JsError)
    (h1 : jsIncludes (jsToLower e.message) "api key not valid" = false)
    (h2 : jsIncludes (jsToLower e.message) "quota" = false)
    (h3 : jsIncludes (jsToLower e.message) "model not found" = false)
    (h4 : (e.isSyntaxError && jsIncludes e.message "JSON") = false) :
    catchResponse e = ⟨500, Body.err
      (if jsTruthyStr e.message then e.message else "Failed to get response from AI.")
      (some "See server logs for more information.")⟩ := by
  simp [catchResponse, classifyCaughtError, h1, h2, h3, h4]

/-- Claim C2: with the credential configured, any parsed JSON body whose
prompt field is missing or falsy yields status 400 with the fixed error
body, and the upstream generative-text service is never invoked. -/
theorem missing_prompt_returns_400_without_upstream (key : Option String)
    (hk : jsTruthy key = true) (b : ReqBody)
    (hb : jsTruthy b.prompt = false)
    (up : String → Except JsError String) :
    POST key (.ok b) up =
      ⟨⟨400, Body.err "No prompt provided in request body." none⟩, false⟩ := by
  obtain ⟨op⟩ := b
  cases op with
  | none => simp [POST, hk]
  | some p =>
    have hp : jsTruthyStr p = false := hb
    simp [POST, hk, hp]

/-- Witness for C2 at a concrete input: key set, body without a prompt. -/
theorem missing_prompt_returns_400_without_upstream_witness :
    POST (some "k") (.ok ⟨none⟩) (fun _ => .ok "x") =
      ⟨⟨400, Body.err "No prompt provided in request body." none⟩, false⟩ :=
  missing_prompt_returns_400_without_upstream (some "k") (by decide)
    ⟨none⟩ (by decide) (fun _ => .ok "x")

/-- Claim C3: when the API credential is absent (or empty, hence falsy),
the handler returns the fixed 500 configuration error and the upstream
service is never invoked, regardless of the request body, including a
malformed-JSON parse outcome or a valid prompt. -/
theorem missing_key_returns_500_without_upstream (key : Option String)
    (hk : jsTruthy key = false) (parsed : Except JsError ReqBody)
    (up : String → Except JsError String) :
    POST key parsed up =
      ⟨⟨500, Body.err "AI service not configured. API Key missing." none⟩, false⟩ := by
  simp [POST, hk]

/-- Witness for C3 at a concrete input: unset key with a malformed-JSON
parse exception as the body outcome. -/
theorem missing_key_returns_500_without_upstream_witness :
    POST none (.error ⟨true, "Unexpected end of JSON input"⟩) (fun _ => .ok "x") =
      ⟨⟨500, Body.err "AI service not configured. API Key missing." none⟩, false⟩ :=
  missing_key_returns_500_without_upstream none (by decide)
    (.error ⟨true, "Unexpected end of JSON input"⟩) (fun _ => .ok "x")

/-- Claim C8: with the credential configured and a truthy prompt, a
successful upstream call returning text t yields status 200 with body
reply t. -/
theorem success_returns_reply_200 (key : Option String)
    (hk : jsTruthy key = true) (p : String) (hp : jsTruthyStr p = true)
    (t : String) (up : String → Except JsError String)
    (hup : up p = .ok t) :
    POST key (.ok ⟨some p⟩) up = ⟨⟨200, Body.reply t⟩, true⟩ := by
  simp [POST, hk, hp, hup]

/-- Witness for C8 at the concrete input from the specification: prompt
hello with the upstream returning hi there. -/
theorem success_returns_reply_200_witness :
    POST (some "k") (.ok ⟨some "hello"⟩) (fun _ => .ok "hi there") =
      ⟨⟨200, Body.reply "hi there"⟩, true⟩ :=
  success_returns_reply_200 (some "k") (by decide) "hello" (by decide)
    "hi there" (fun _ => .ok "hi there") rfl

/-- Claim C4: any caught exception whose message contains the substring
api key not valid in any letter case yields status 401 with the fixed
message, both when the exception comes from parsing and when it comes
from the upstream call. -/
theorem api_key_not_valid_maps_to_401 (e : JsError)
    (h : jsIncludes (jsToLower e.message) "api key not valid" = true)
    (key : Option String) (hk : jsTruthy key = true)
    (p : String) (hp : jsTruthyStr p = true)
    (up : String → Except JsError String) :
    (POST key (.error e) up).response = ⟨401, Body.err
      "Gemini API Key is not valid. Please check your .env.local file and ensure it\x27s correct."
      (some "See server logs for more information.")⟩ ∧
    (POST key (.ok ⟨some p⟩) (fun _ => .error e)).response = ⟨401, Body.err
      "Gemini API Key is not valid. Please check your .env.local file and ensure it\x27s correct."
      (some "See server logs for more information.")⟩ := by
  have hc := catchResponse_api_key e h
  constructor
  · rw [POST_parse_error key hk e up, hc]
  · rw [POST_upstream_error key hk p hp (fun _ => .error e) e rfl, hc]

/-- Witness for C4 at a concrete input: a mixed-case upstream message. -/
theorem api_key_not_valid_maps_to_401_witness :
    (POST (some "k") (.error ⟨false, "API key not valid. Please pass a valid API key."⟩)
      (fun _ => .ok "x")).response = ⟨401, Body.err
      "Gemini API Key is not valid. Please check your .env.local file and ensure it\x27s correct."
      (some "See server logs for more information.")⟩ :=
  (api_key_not_valid_maps_to_401 ⟨false, "API key not valid. Please pass a valid API key."⟩
    (by decide) (some "k") (by decide) "hi" (by decide) (fun _ => .ok "x")).1

/-- Claim C5: any caught exception whose message contains quota in any
letter case, and does not contain api key not valid, yields status 429
with the fixed message; since the quota row precedes the model-not-found
row, a message containing both still resolves to 429. -/
theorem quota_maps_to_429 (e : JsError)
    (hq : jsIncludes (jsToLower e.message) "quota" = true)
    (hnk : jsIncludes (jsToLower e.message) "api key not valid" = false)
    (key : Option String) (hk : jsTruthy key = true)
    (p : String) (hp : jsTruthyStr p = true)
    (up : String → Except JsError String) :
    (POST key (.error e) up).response = ⟨429, Body.err
      "API quota exceeded. Please check your Google Cloud console."
      (some "See server logs for more information.")⟩ ∧
    (POST key (.ok ⟨some p⟩) (fun _ => .error e)).response = ⟨429, Body.err
      "API quota exceeded. Please check your Google Cloud console."
      (some "See server logs for more information.")⟩ := by
  have hc := catchResponse_quota e hq hnk
  constructor
  · rw [POST_parse_error key hk e up, hc]
  · rw [POST_upstream_error key hk p hp (fun _ => .error e) e rfl, hc]

/-- Witness for C5 at a concrete input whose message contains both quota
and model not found, showing the quota row takes precedence. -/
theorem quota_maps_to_429_witness :
    (POST (some "k") (.error ⟨false, "Quota exceeded and model not found"⟩)
      (fun _ => .ok "x")).response = ⟨429, Body.err
      "API quota exceeded. Please check your Google Cloud console."
      (some "See server logs for more information.")⟩ :=
  (quota_maps_to_429 ⟨false, "Quota exceeded and model not found"⟩
    (by decide) (by decide) (some "k") (by decide) "hi" (by decide)
    (fun _ => .ok "x")).1

/-- Claim C6: any caught exception whose message contains model not found
in any letter case and matches neither of the earlier rows yields status
404 with the fixed message. -/
theorem model_not_found_maps_to_404 (e : JsError)
    (hmn : jsIncludes (jsToLower e.message) "model not found" = true)
    (hnk : jsIncludes (jsToLower e.message) "api key not valid" = false)
    (hnq : jsIncludes (jsToLower e.message) "quota" = false)
    (key : Option String) (hk : jsTruthy key = true)
    (p : String) (hp : jsTruthyStr p = true)
    (up : String → Except JsError String) :
    (POST key (.error e) up).response = ⟨404, Body.err
      "The specified AI model was not found. Check the model name."
      (some "See server logs for more information.")⟩ ∧
    (POST key (.ok ⟨some p⟩) (fun _ => .error e)).response = ⟨404, Body.err
      "The specified AI model was not found. Check the model name."
      (some "See server logs for more information.")⟩ := by
  have hc := catchResponse_model e hmn hnk hnq
  constructor
  · rw [POST_parse_error key hk e up, hc]
  · rw [POST_upstream_error key hk p hp (fun _ => .error e) e rfl, hc]

/-- Witness for C6 at a concrete input: a mixed-case upstream message. -/
theorem model_not_found_maps_to_404_witness :
    (POST (some "k") (.error ⟨false, "Requested Model Not Found for this project"⟩)
      (fun _ => .ok "x")).response = ⟨404, Body.err
      "The specified AI model was not found. Check the model name."
      (some "See server logs for more information.")⟩ :=
  (model_not_found_maps_to_404 ⟨false, "Requested Model Not Found for this project"⟩
    (by decide) (by decide) (by decide) (some "k") (by decide) "hi" (by decide)
    (fun _ => .ok "x")).1

/-- Claim C9: any caught exception matching none of the classification
rows yields status 500, with the raw exception message as the error
string, or the generic fallback when the exception carries no message;
this holds on both catch paths. -/
theorem unmatched_error_maps_to_500 (e : JsError)
    (h1 : jsIncludes (jsToLower e.message) "api key not valid" = false)
    (h2 : jsIncludes (jsToLower e.message) "quota" = false)
    (h3 : jsIncludes (jsToLower e.message) "model not found" = false)
    (h4 : (e.isSyntaxError && jsIncludes e.message "JSON") = false)
    (key : Option String) (hk : jsTruthy key = true)
    (p : String) (hp : jsTruthyStr p = true)
    (up : String → Except JsError String) :
    (POST key (.error e) up).response = ⟨500, Body.err
      (if jsTruthyStr e.message then e.message else "Failed to get response from AI.")
      (some "See server logs for more information.")⟩ ∧
    (POST key (.ok ⟨some p⟩) (fun _ => .error e)).response = ⟨500, Body.err
      (if jsTruthyStr e.message then e.message else "Failed to get response from AI.")
      (some "See server logs for more information.")⟩ := by
  have hc := catchResponse_default e h1 h2 h3 h4
  constructor
  · rw [POST_parse_error key hk e up, hc]
  · rw [POST_upstream_error key hk p hp (fun _ => .error e) e rfl, hc]

/-- Witness for C9 at a concrete input: an unclassified upstream failure
whose raw message is echoed back with status 500. -/
theorem unmatched_error_maps_to_500_witness :
    (POST (some "k") (.error ⟨false, "socket hang up"⟩) (fun _ => .ok "x")).response =
      ⟨500, Body.err "socket hang up" (some "See server logs for more information.")⟩ := by
  simpa using (unmatched_error_maps_to_500 ⟨false, "socket hang up"⟩
    (by decide) (by decide) (by decide) (by decide) (some "k") (by decide)
    "hi" (by decide) (fun _ => .ok "x")).1

/-- Claim C10: with the credential configured, a parse exception is
classified as 400 exactly when it is a SyntaxError whose message contains
the case-sensitive substring JSON (given no earlier row matches); when
that marker test fails, the response is instead 500 carrying the raw
exception message. -/
theorem json_parse_400_requires_marker (e : JsError)
    (h1 : jsIncludes (jsToLower e.message) "api key not valid" = false)
    (h2 : jsIncludes (jsToLower e.message) "quota" = false)
    (h3 : jsIncludes (jsToLower e.message) "model not found" = false)
    (key : Option String) (hk : jsTruthy key = true)
    (up : String → Except JsError String) :
    ((POST key (.error e) up).response.status = 400 ↔
      (e.isSyntaxError = true ∧ jsIncludes e.message "JSON" = true)) ∧
    ((e.isSyntaxError && jsIncludes e.message "JSON") = false →
      jsTruthyStr e.message = true →
      (POST key (.error e) up).response =
        ⟨500, Body.err e.message (some "See server logs for more information.")⟩) := by
  rw [POST_parse_error key hk e up]
  constructor
  · by_cases h4 : (e.isSyntaxError && jsIncludes e.message "JSON") = true
    · rw [catchResponse_json e h1 h2 h3 h4]
      have h4' := Bool.and_eq_true_iff.mp h4
      exact ⟨fun _ => h4', fun _ => rfl⟩
    · have h4f : (e.isSyntaxError && jsIncludes e.message "JSON") = false := by
        simpa using h4
      rw [catchResponse_default e h1 h2 h3 h4f]
      constructor
      · intro habs
        simp at habs
      · intro ⟨hs, hj⟩
        rw [hs, hj] at h4f
        exact Bool.noConfusion h4f
  · intro h4 hm
    rw [catchResponse_default e h1 h2 h3 h4, hm]
    simp

/-- Witness for C10 at a concrete input: a SyntaxError whose message is
the older V8 parse-failure text lacking the JSON marker falls through to
the 500 row and echoes the raw message. -/
theorem json_parse_400_requires_marker_witness :
    (POST (some "k") (.error ⟨true, "Unexpected end of input"⟩) (fun _ => .ok "x")).response =
      ⟨500, Body.err "Unexpected end of input" (some "See server logs for more information.")⟩ :=
  (json_parse_400_requires_marker ⟨true, "Unexpected end of input"⟩
    (by decide) (by decide) (by decide) (some "k") (by decide)
    (fun _ => .ok "x")).2 (by decide) (by decide)

/-- Claim C7 counterexample: a request whose body is the text quota is
not valid JSON, and request.json() raises a SyntaxError whose message (as
produced by current V8 engines, which quote the offending input) contains
the substring quota; the quota row fires first, so the handler returns
429 with the quota message rather than 400 with the invalid-JSON message,
refuting the claim that every malformed-JSON request yields 400. -/
theorem malformed_json_request_can_return_429 :
    (POST (some "k")
      (.error ⟨true, "Unexpected token \x27q\x27, \"quota\" is not valid JSON"⟩)
      (fun _ => .ok "x")).response =
      ⟨429, Body.err "API quota exceeded. Please check your Google Cloud console."
        (some "See server logs for more information.")⟩ := by decide

/-- Claim C7 as amended: with the credential configured, a JSON-parse
SyntaxError yields status 400 with the message Invalid JSON in request
body. provided its message contains the case-sensitive marker JSON and
matches none of the earlier classification rows. -/
theorem malformed_json_maps_to_400_when_marker_present (e : JsError)
    (hse : e.isSyntaxError = true)
    (hJ : jsIncludes e.message "JSON" = true)
    (h1 : jsIncludes (jsToLower e.message) "api key not valid" = false)
    (h2 : jsIncludes (jsToLower e.message) "quota" = false)
    (h3 : jsIncludes (jsToLower e.message) "model not found" = false)
    (key : Option String) (hk : jsTruthy key = true)
    (up : String → Except JsError String) :
    (POST key (.error e) up).response =
      ⟨400, Body.err "Invalid JSON in request body."
        (some "See server logs for more information.")⟩ := by
  rw [POST_parse_error key hk e up]
  exact catchResponse_json e h1 h2 h3 (by simp [hse, hJ])

/-- Witness for the amended C7 at a concrete input: the typical V8
parse-failure message carrying the JSON marker. -/
theorem malformed_json_maps_to_400_when_marker_present_witness :
    (POST (some "k") (.error ⟨true, "Unexpected end of JSON input"⟩)
      (fun _ => .ok "x")).response =
      ⟨400, Body.err "Invalid JSON in request body."
        (some "See server logs for more information.")⟩ :=
  malformed_json_maps_to_400_when_marker_present ⟨true, "Unexpected end of JSON input"⟩
    (by decide) (by decide) (by decide) (by decide) (by decide)
    (some "k") (by decide) (fun _ => .ok "x")

/-- Claim C1 counterexample: the missing-configuration 500 response and
the missing-prompt 400 response are non-200 responses that carry no
details field, refuting the claim that every non-200 response contains
one. -/
theorem missing_config_and_missing_prompt_lack_details :
    ((POST none (.ok ⟨some "hi"⟩) (fun _ => .ok "x")).response.status ≠ 200 ∧
      bodyHasDetails (POST none (.ok ⟨some "hi"⟩) (fun _ => .ok "x")).response.body = false) ∧
    ((POST (some "k") (.ok ⟨none⟩) (fun _ => .ok "x")).response.status ≠ 200 ∧
      bodyHasDetails (POST (some "k") (.ok ⟨none⟩) (fun _ => .ok "x")).response.body = false) := by
  decide

/-- Claim C1 as amended: every response of the handler is either a 200
reply, an error response from the catch block carrying the details field
pointing at the server logs, or one of the two early-return error bodies
(missing configuration 500 and missing prompt 400), which carry only the
error string and no details field. -/
theorem error_details_only_in_catch (key : Option String)
    (parsed : Except JsError ReqBody) (up : String → Except JsError String) :
    (∃ t, (POST key parsed up).response = ⟨200, Body.reply t⟩) ∨
    (∃ s m, (POST key parsed up).response =
      ⟨s, Body.err m (some "See server logs for more information.")⟩) ∨
    (POST key parsed up).response =
      ⟨500, Body.err "AI service not configured. API Key missing." none⟩ ∨
    (POST key parsed up).response =
      ⟨400, Body.err "No prompt provided in request body." none⟩ := by
  by_cases hk : jsTruthy key = true
  · cases parsed with
    | error e =>
      refine Or.inr (Or.inl ⟨(classifyCaughtError e).1, (classifyCaughtError e).2, ?_⟩)
      rw [POST_parse_error key hk e up]
      rfl
    | ok b =>
      obtain ⟨op⟩ := b
      cases op with
      | none => exact Or.inr (Or.inr (Or.inr (by simp [POST, hk])))
      | some p =>
        by_cases hp : jsTruthyStr p = true
        · cases hu : up p with
          | ok t => exact Or.inl ⟨t, by simp [POST, hk, hp, hu]⟩
          | error e =>
            refine Or.inr (Or.inl ⟨(classifyCaughtError e).1, (classifyCaughtError e).2, ?_⟩)
            rw [POST_upstream_error key hk p hp up e hu]
            rfl
        · have hp' : jsTruthyStr p = false := by simpa using hp
          exact Or.inr (Or.inr (Or.inr (by simp [POST, hk, hp'])))
  · have hk' : jsTruthy key = false := by simpa using hk
    exact Or.inr (Or.inr (Or.inl (by simp [POST, hk'])))

end Anirec
